import Mathlib

/-!
Verification development for the baby growth tracker (`src/weight.py`).

The program keeps an in-memory pandas DataFrame `df` of growth records
(columns `Date`, `Age_Days`, `Weight_kg`), mirrored to a CSV blob, and a
static WHO percentile table.  A single Dash callback
`update_data_and_chart` dispatches on the triggering widget and either
appends a record, wholesale-replaces the table, or does nothing; the chart
builder `update_chart` renders two percentile bands, five percentile
lines, and optionally the baby's own growth trace.

This file shallowly embeds that logic: calendar dates model Python
`datetime` values restricted to `%Y-%m-%d` (what the Dash date pickers
produce and what pandas serializes midnight timestamps to), the DataFrame
is modelled by `DFrame`, and the callback and chart builder are translated
statement by statement.
-/

set_option autoImplicit false

/-- A proleptic Gregorian calendar date, as held by Python `datetime`
(year 1-9999). -/
structure DateV where
  year : Nat
  month : Nat
  day : Nat
  deriving DecidableEq, Repr

/-- Gregorian leap-year rule, as in Python's `datetime` module. -/
def isLeap (y : Nat) : Bool :=
  y % 4 == 0 && (y % 100 != 0 || y % 400 == 0)

/-- Number of days in a month (month numbered 1-12; 0 for out-of-range). -/
def monthDays (leap : Bool) : Nat → Nat
  | 1 => 31
  | 2 => if leap then 29 else 28
  | 3 => 31
  | 4 => 30
  | 5 => 31
  | 6 => 30
  | 7 => 31
  | 8 => 31
  | 9 => 30
  | 10 => 31
  | 11 => 30
  | 12 => 31
  | _ => 0

/-- Cumulative days before a month in a non-leap year
(CPython `_DAYS_BEFORE_MONTH`). -/
def daysBeforeMonthTable : Nat → Nat
  | 1 => 0
  | 2 => 31
  | 3 => 59
  | 4 => 90
  | 5 => 120
  | 6 => 151
  | 7 => 181
  | 8 => 212
  | 9 => 243
  | 10 => 273
  | 11 => 304
  | 12 => 334
  | _ => 0

/-- Days in all years strictly before year `y`
(CPython `datetime._days_before_year`). -/
def daysBeforeYear (y : Nat) : Nat :=
  (y - 1) * 365 + (y - 1) / 4 - (y - 1) / 100 + (y - 1) / 400

/-- Days in year `y` strictly before month `m`
(CPython `datetime._days_before_month`). -/
def daysBeforeMonth (y m : Nat) : Nat :=
  daysBeforeMonthTable m + (if 2 < m ∧ isLeap y then 1 else 0)

/-- Python `date.toordinal()`: day number with 0001-01-01 as day 1.
Subtracting two midnight `datetime` values yields a `timedelta` whose
`.days` is the difference of the two ordinals. -/
def DateV.toOrdinal (d : DateV) : Nat :=
  daysBeforeYear d.year + daysBeforeMonth d.year d.month + d.day

/-- Validity of a date, as enforced by `datetime.strptime` /
`pd.to_datetime`. -/
def DateV.validB (d : DateV) : Bool :=
  1 ≤ d.year && d.year ≤ 9999 && 1 ≤ d.month && d.month ≤ 12 &&
  1 ≤ d.day && d.day ≤ monthDays (isLeap d.year) d.month

/-- The decimal digit character for `n % 10`-style values. -/
def digitChar : Nat → Char
  | 0 => '0'
  | 1 => '1'
  | 2 => '2'
  | 3 => '3'
  | 4 => '4'
  | 5 => '5'
  | 6 => '6'
  | 7 => '7'
  | 8 => '8'
  | _ => '9'

/-- The numeric value of a decimal digit character, `none` otherwise. -/
def digitVal? (c : Char) : Option Nat :=
  if c = '0' then some 0
  else if c = '1' then some 1
  else if c = '2' then some 2
  else if c = '3' then some 3
  else if c = '4' then some 4
  else if c = '5' then some 5
  else if c = '6' then some 6
  else if c = '7' then some 7
  else if c = '8' then some 8
  else if c = '9' then some 9
  else none

/-- Two-digit zero-padded rendering (as in `%m` / `%d` of `isoformat`). -/
def pad2 (n : Nat) : List Char :=
  [digitChar (n / 10 % 10), digitChar (n % 10)]

/-- Four-digit zero-padded rendering (as in `%Y` of `isoformat`). -/
def pad4 (n : Nat) : List Char :=
  [digitChar (n / 1000 % 10), digitChar (n / 100 % 10),
   digitChar (n / 10 % 10), digitChar (n % 10)]

/-- The `YYYY-MM-DD` character rendering of a date: what
`pandas.to_csv` writes for a midnight-only datetime column and what Dash
date pickers hand to the callback. -/
def isoChars (d : DateV) : List Char :=
  pad4 d.year ++ '-' :: (pad2 d.month ++ '-' :: pad2 d.day)

/-- The `YYYY-MM-DD` string for a date. -/
def DateV.isoString (d : DateV) : String :=
  ⟨isoChars d⟩

/-- Parse a `YYYY-MM-DD` character sequence into a validated date; models
`datetime.strptime(s, '%Y-%m-%d')` and `pd.to_datetime` on the date
strings this program produces.  Returns `none` (the exception case) for
any other shape or an out-of-range date. -/
def parseIsoChars (cs : List Char) : Option DateV :=
  match cs with
  | [y1, y2, y3, y4, s1, m1, m2, s2, d1, d2] =>
    if s1 = '-' ∧ s2 = '-' then
      match digitVal? y1, digitVal? y2, digitVal? y3, digitVal? y4,
            digitVal? m1, digitVal? m2, digitVal? d1, digitVal? d2 with
      | some a, some b, some c, some e, some f, some g, some h, some i =>
        if DateV.validB ⟨((a * 10 + b) * 10 + c) * 10 + e, f * 10 + g, h * 10 + i⟩ then
          some ⟨((a * 10 + b) * 10 + c) * 10 + e, f * 10 + g, h * 10 + i⟩
        else none
      | _, _, _, _, _, _, _, _ => none
    else none
  | _ => none

/-- Parse a `YYYY-MM-DD` string into a validated date. -/
def parseIso (s : String) : Option DateV :=
  parseIsoChars s.data

theorem digitVal?_digitChar (n : Nat) (h : n < 10) :
    digitVal? (digitChar n) = some n := by
  interval_cases n <;> decide

theorem digitVal?_inv (c : Char) (n : Nat) (h : digitVal? c = some n) :
    n < 10 ∧ digitChar n = c := by
  unfold digitVal? at h
  split_ifs at h with h0 h1 h2 h3 h4 h5 h6 h7 h8 h9
  · injection h with h; subst h; subst h0; exact ⟨by omega, rfl⟩
  · injection h with h; subst h; subst h1; exact ⟨by omega, rfl⟩
  · injection h with h; subst h; subst h2; exact ⟨by omega, rfl⟩
  · injection h with h; subst h; subst h3; exact ⟨by omega, rfl⟩
  · injection h with h; subst h; subst h4; exact ⟨by omega, rfl⟩
  · injection h with h; subst h; subst h5; exact ⟨by omega, rfl⟩
  · injection h with h; subst h; subst h6; exact ⟨by omega, rfl⟩
  · injection h with h; subst h; subst h7; exact ⟨by omega, rfl⟩
  · injection h with h; subst h; subst h8; exact ⟨by omega, rfl⟩
  · injection h with h; subst h; subst h9; exact ⟨by omega, rfl⟩

theorem monthDays_le (b : Bool) (m : Nat) : monthDays b m ≤ 31 := by
  unfold monthDays
  split <;> first | omega | (cases b <;> simp)

theorem validB_bounds (d : DateV) (h : d.validB = true) :
    1 ≤ d.year ∧ d.year ≤ 9999 ∧ 1 ≤ d.month ∧ d.month ≤ 12 ∧
    1 ≤ d.day ∧ d.day ≤ 31 := by
  have hb := h
  unfold DateV.validB at hb
  simp only [Bool.and_eq_true, decide_eq_true_eq] at hb
  exact ⟨hb.1.1.1.1.1, hb.1.1.1.1.2, hb.1.1.1.2, hb.1.1.2, hb.1.2,
    le_trans hb.2 (monthDays_le _ _)⟩

/-- Formatting then parsing a valid date recovers the date: the
`strptime` / `isoformat` round trip. -/
theorem parseIsoChars_isoChars (d : DateV) (h : d.validB = true) :
    parseIsoChars (isoChars d) = some d := by
  obtain ⟨y, m, dd⟩ := d
  obtain ⟨hy1, hy2, hm1, hm2, hd1, hd2⟩ := validB_bounds _ h
  simp only at hy1 hy2 hm1 hm2 hd1 hd2
  have e1 := digitVal?_digitChar (y / 1000 % 10) (Nat.mod_lt _ (by omega))
  have e2 := digitVal?_digitChar (y / 100 % 10) (Nat.mod_lt _ (by omega))
  have e3 := digitVal?_digitChar (y / 10 % 10) (Nat.mod_lt _ (by omega))
  have e4 := digitVal?_digitChar (y % 10) (Nat.mod_lt _ (by omega))
  have e5 := digitVal?_digitChar (m / 10 % 10) (Nat.mod_lt _ (by omega))
  have e6 := digitVal?_digitChar (m % 10) (Nat.mod_lt _ (by omega))
  have e7 := digitVal?_digitChar (dd / 10 % 10) (Nat.mod_lt _ (by omega))
  have e8 := digitVal?_digitChar (dd % 10) (Nat.mod_lt _ (by omega))
  have hyv : ((y / 1000 % 10 * 10 + y / 100 % 10) * 10 + y / 10 % 10) * 10 + y % 10 = y := by
    omega
  have hmv : m / 10 % 10 * 10 + m % 10 = m := by omega
  have hdv : dd / 10 % 10 * 10 + dd % 10 = dd := by omega
  simp only [isoChars, pad4, pad2, List.cons_append, List.nil_append,
    parseIsoChars, e1, e2, e3, e4, e5, e6, e7, e8, hyv, hmv, hdv,
    and_self, if_true]
  simp [h]

/-- Parsing then formatting reproduces the input character for character:
nothing but the canonical `YYYY-MM-DD` rendering is accepted. -/
theorem isoChars_parseIsoChars (cs : List Char) (d : DateV)
    (h : parseIsoChars cs = some d) : isoChars d = cs := by
  unfold parseIsoChars at h
  split at h
  case h_2 => exact absurd h (by simp)
  case h_1 y1 y2 y3 y4 s1 m1 m2 s2 d1 d2 =>
    split_ifs at h with hsep
    obtain ⟨hs1, hs2⟩ := hsep
    subst hs1; subst hs2
    split at h
    next a b c e f g hh i ha hb hc he hf hg hh2 hi =>
      split_ifs at h with hval
      obtain ⟨ha1, ha2⟩ := digitVal?_inv _ _ ha
      obtain ⟨hb1, hb2⟩ := digitVal?_inv _ _ hb
      obtain ⟨hc1, hc2⟩ := digitVal?_inv _ _ hc
      obtain ⟨he1, he2⟩ := digitVal?_inv _ _ he
      obtain ⟨hf1, hf2⟩ := digitVal?_inv _ _ hf
      obtain ⟨hg1, hg2⟩ := digitVal?_inv _ _ hg
      obtain ⟨hh1, hh3⟩ := digitVal?_inv _ _ hh2
      obtain ⟨hi1, hi2⟩ := digitVal?_inv _ _ hi
      injection h with h
      subst h
      have q1 : (((a * 10 + b) * 10 + c) * 10 + e) / 1000 % 10 = a := by omega
      have q2 : (((a * 10 + b) * 10 + c) * 10 + e) / 100 % 10 = b := by omega
      have q3 : (((a * 10 + b) * 10 + c) * 10 + e) / 10 % 10 = c := by omega
      have q4 : (((a * 10 + b) * 10 + c) * 10 + e) % 10 = e := by omega
      have q5 : (f * 10 + g) / 10 % 10 = f := by omega
      have q6 : (f * 10 + g) % 10 = g := by omega
      have q7 : (hh * 10 + i) / 10 % 10 = hh := by omega
      have q8 : (hh * 10 + i) % 10 = i := by omega
      simp only [isoChars, pad4, pad2, q1, q2, q3, q4, q5, q6, q7, q8,
        ha2, hb2, hc2, he2, hf2, hg2, hh3, hi2, List.cons_append,
        List.nil_append]
    next => exact Option.noConfusion h

/-- String-level round trip: formatting a valid date parses back. -/
theorem parseIso_isoString (d : DateV) (h : d.validB = true) :
    parseIso d.isoString = some d :=
  parseIsoChars_isoChars d h

/-- String-level round trip: a string accepted by `parseIso` is exactly
the canonical rendering of the parsed date (no drift). -/
theorem isoString_parseIso (s : String) (d : DateV)
    (h : parseIso s = some d) : d.isoString = s := by
  obtain ⟨data⟩ := s
  exact congrArg String.mk (isoChars_parseIsoChars data d h)

/-! ## Growth record store: the pandas DataFrame `df` -/

/-- One entry of the DataFrame's `Date` column.  Normally a parsed
midnight `Timestamp` (`ts`); after `df = pd.DataFrame(table_data)` and
before `pd.to_datetime` succeeds it is still the raw string (`str`). -/
inductive DateCell where
  | ts (d : DateV)
  | str (s : String)
  deriving DecidableEq, Repr

/-- How a `Date` cell renders: `pandas.to_csv` writes a midnight-only
datetime column as plain `YYYY-MM-DD` dates, and `df.to_dict('records')`
hands the same dates to the Dash table; a raw string cell is written
as-is. -/
def cellString : DateCell → String
  | .ts d => d.isoString
  | .str s => s

/-- One row of the in-memory DataFrame `df`. -/
structure GrowthRecord where
  Date : DateCell
  Age_Days : Int
  Weight_kg : ℚ
  deriving DecidableEq, Repr

/-- One row of the persisted CSV / of the Dash table's `data` property:
`Date` is a string, `Age_Days` and `Weight_kg` are numbers. -/
structure Row where
  Date : String
  Age_Days : Int
  Weight_kg : ℚ
  deriving DecidableEq, Repr

/-- The global DataFrame `df`.  `frame` is a DataFrame that has the three
schema columns; `noColumns` is `pd.DataFrame([])`, the empty column-less
frame produced by saving an empty table. -/
inductive DFrame where
  | frame (rows : List GrowthRecord)
  | noColumns
  deriving DecidableEq, Repr

/-- The rows of the DataFrame (empty for the column-less frame). -/
def DFrame.recordsList : DFrame → List GrowthRecord
  | .frame l => l
  | .noColumns => []

/-- Serialize DataFrame rows to CSV / Dash-table rows: models the row
content of `df.to_csv(...)` in `write_csv_to_blob` and of
`df.to_dict('records')`. -/
def rowsOfRecs (l : List GrowthRecord) : List Row :=
  l.map fun r => ⟨cellString r.Date, r.Age_Days, r.Weight_kg⟩

/-- The rows the UI table displays: `df.to_dict('records')`. -/
def DFrame.displayRows (df : DFrame) : List Row :=
  rowsOfRecs df.recordsList

/-- `pd.DataFrame(table_data)` on a non-empty row list: the `Date` column
is still raw strings. -/
def rawRecs (rows : List Row) : List GrowthRecord :=
  rows.map fun r => ⟨.str r.Date, r.Age_Days, r.Weight_kg⟩

/-- Parse one table/CSV row's `Date` string, keeping `Age_Days` and
`Weight_kg` verbatim: one element of
`df['Date'] = pd.to_datetime(df['Date'])`. -/
def recOfRow? (r : Row) : Option GrowthRecord :=
  (parseIso r.Date).map fun d => ⟨.ts d, r.Age_Days, r.Weight_kg⟩

/-- Parse the whole `Date` column; `none` models the `ValueError` raised
by `pd.to_datetime` when any entry fails to parse. -/
def parseRows : List Row → Option (List GrowthRecord)
  | [] => some []
  | r :: rs =>
    match recOfRow? r, parseRows rs with
    | some g, some tl => some (g :: tl)
    | _, _ => none

/-- Startup load of the growth-record blob (`read_csv_from_blob` +
`pd.to_datetime` wrapped in `try/except`): `none` stands for a missing or
unreadable blob; any failure falls back to the empty frame with the three
schema columns (`pd.DataFrame(columns=['Date', 'Age_Days', 'Weight_kg'])`). -/
def loadStore (blob : Option (List Row)) : DFrame :=
  match blob with
  | none => DFrame.frame []
  | some rows =>
    match parseRows rows with
    | some recs => DFrame.frame recs
    | none => DFrame.frame []

/-! ## The Dash callback `update_data_and_chart` -/

/-- Which component fired the callback
(`ctx.triggered[0]['prop_id'].split('.')[0]`).  `other` covers the
initial render (empty prop id). -/
inductive Trigger where
  | addButton
  | saveButton
  | dataTable
  | other
  deriving DecidableEq, Repr

/-- Python truthiness of the optional date-picker strings `dob` and
`date`: `None` and the empty string are falsy. -/
def truthyStr : Option String → Bool
  | none => false
  | some s => !(s == "")

/-- What one callback invocation does.  `df` is the global DataFrame
after the call (including the state left behind when an exception
escapes), `written` the CSV rows uploaded to the blob (`none` = no
write), `message` the returned status text and `tableOut` the returned
table rows; the latter two are `none` when the callback raises. -/
structure Outcome where
  df : DFrame
  written : Option (List Row)
  message : Option String
  tableOut : Option (List Row)
  deriving DecidableEq, Repr

/-- `pd.concat([df, new_record], ignore_index=True)`: appends the new
record; concatenation with the empty column-less frame just yields the
new record's frame. -/
def concatRecord : DFrame → GrowthRecord → DFrame
  | .frame l, r => .frame (l ++ [r])
  | .noColumns, r => .frame [r]

/-- The replace branch (`save-button` / `data-table` trigger):
`df = pd.DataFrame(table_data); df['Date'] = pd.to_datetime(df['Date']);
write_csv_to_blob(df, ...)`.  On an empty row list `df['Date']` raises
`KeyError` after `df` has become the column-less frame; on an unparseable
date `pd.to_datetime` raises after `df` has become the raw string frame;
either way nothing is written. -/
def replaceAllOutcome (table_data : List Row) : Outcome :=
  match table_data with
  | [] => ⟨DFrame.noColumns, none, none, none⟩
  | r :: rs =>
    match parseRows (r :: rs) with
    | some recs =>
      ⟨DFrame.frame recs, some (rowsOfRecs recs),
        some "Changes saved successfully!", some (rowsOfRecs recs)⟩
    | none => ⟨DFrame.frame (rawRecs (r :: rs)), none, none, none⟩

/-- The callback `update_data_and_chart` of `src/weight.py`, lines
110-128: dispatch on the trigger; the add branch requires `dob` and
`date` truthy and `weight is not None`, parses the two dates with
`strptime(..., '%Y-%m-%d')` (an unparseable string raises, leaving `df`
untouched), computes `age_days` as the day difference, appends and
persists; the save/table branch is `replaceAllOutcome`; anything else
changes nothing.  (The figure is regenerated separately by
`update_chart`.) -/
def update_data_and_chart (df0 : DFrame) (trigger : Trigger)
    (table_data : List Row) (dob date : Option String) (weight : Option ℚ) :
    Outcome :=
  if trigger = Trigger.addButton ∧ truthyStr dob ∧ truthyStr date ∧ weight.isSome then
    match (dob.getD "").data |> parseIsoChars, (date.getD "").data |> parseIsoChars, weight with
    | some dobD, some mD, some w =>
      let age_days : Int := (mD.toOrdinal : Int) - (dobD.toOrdinal : Int)
      let df1 := concatRecord df0 ⟨.ts mD, age_days, w⟩
      ⟨df1, some (rowsOfRecs df1.recordsList),
        some "Record added successfully!", some df1.displayRows⟩
    | _, _, _ => ⟨df0, none, none, none⟩
  else if trigger = Trigger.saveButton ∨ trigger = Trigger.dataTable then
    replaceAllOutcome table_data
  else
    ⟨df0, none, some "No changes made.", some df0.displayRows⟩

/-! ## The chart builder `update_chart` -/

/-- One `go.Scatter` trace, keeping precisely the keyword arguments the
source sets (fields left at `none` / default are not passed). -/
structure Trace where
  x : List Int
  y : List (Option ℚ)
  mode : Option String := none
  name : Option String := none
  fill : Option String := none
  fillcolor : Option String := none
  lineColor : Option String := none
  lineWidth : Option ℚ := none
  markerSize : Option ℚ := none
  hoverinfo : Option String := none
  showlegend : Bool := true
  deriving DecidableEq, Repr

/-- The `fig.update_layout(...)` settings plus the trace list. -/
structure Figure where
  traces : List Trace
  title : String
  xaxisTitle : String
  yaxisTitle : String
  legendTraceorder : String
  hovermode : String
  deriving DecidableEq, Repr

/-- The five percentile series of the global `percentiles` dict; each
entry is `none` where `pd.to_numeric(..., errors='coerce')` produced NaN. -/
structure Percentiles where
  p5 : List (Option ℚ)
  p10 : List (Option ℚ)
  p50 : List (Option ℚ)
  p90 : List (Option ℚ)
  p95 : List (Option ℚ)
  deriving DecidableEq, Repr

/-- `percentiles.items()` in the dict's insertion order. -/
def percentileItems (p : Percentiles) : List (String × List (Option ℚ)) :=
  [("5th", p.p5), ("10th", p.p10), ("50th", p.p50), ("90th", p.p90), ("95th", p.p95)]

/-- The chart builder `update_chart` of `src/weight.py`, lines 130-183:
two filled percentile bands (95/5 then 90/10, each a closed polygon over
the age axis forwards then backwards), five percentile lines in dict
order, and — when `df` is non-empty — the baby's own line+marker trace. -/
def update_chart (days : List Int) (pcts : Percentiles) (df : DFrame) : Figure :=
  let band95_5 : Trace :=
    { x := days ++ days.reverse
      y := pcts.p95 ++ pcts.p5.reverse
      fill := some "toself"
      fillcolor := some "rgba(200,200,200,0.3)"
      lineColor := some "rgba(255,255,255,0)"
      hoverinfo := some "skip"
      showlegend := false }
  let band90_10 : Trace :=
    { x := days ++ days.reverse
      y := pcts.p90 ++ pcts.p10.reverse
      fill := some "toself"
      fillcolor := some "rgba(150,150,150,0.3)"
      lineColor := some "rgba(255,255,255,0)"
      hoverinfo := some "skip"
      showlegend := false }
  let pctLines : List Trace :=
    (percentileItems pcts).map fun item =>
      { x := days
        y := item.2
        mode := some "lines"
        name := some (item.1 ++ " Percentile")
        lineColor := some "rgba(0,0,0,0.5)"
        lineWidth := some 1 }
  let recs := df.recordsList
  let growth : List Trace :=
    if recs = [] then []
    else
      [{ x := recs.map fun r => r.Age_Days
         y := recs.map fun r => some r.Weight_kg
         mode := some "lines+markers"
         lineColor := some "red"
         lineWidth := some 2
         markerSize := some 6
         name := some "Baby's Growth" }]
  { traces := band95_5 :: band90_10 :: (pctLines ++ growth)
    title := "Baby Growth Chart for Female Infants (WHO Standards)"
    xaxisTitle := "Age (days)"
    yaxisTitle := "Weight (kg)"
    legendTraceorder := "reversed"
    hovermode := "x unified" }

/-! ## The WHO reference curve loader -/

/-- The raw WHO table as `read_csv_from_blob(who_data_blob, sep=';')`
delivers it: a `Week` column of integers and five percentile columns of
comma-decimal strings. -/
structure WhoData where
  Week : List Int
  P5 : List String
  P10 : List String
  P50 : List String
  P90 : List String
  P95 : List String
  deriving DecidableEq, Repr

/-- `col.str.replace(',', '.')`: every comma becomes a period. -/
def replaceCommaDot (s : String) : String :=
  ⟨s.data.map fun c => if c = ',' then '.' else c⟩

/-- Split a character list at every `'.'`. -/
def splitDot : List Char → List (List Char)
  | [] => [[]]
  | c :: rest =>
    match splitDot rest with
    | [] => [[c]]
    | g :: gs => if c = '.' then [] :: g :: gs else (c :: g) :: gs

/-- Numeric value of a digit sequence (most significant first). -/
def digitsVal (cs : List Char) : Nat :=
  cs.foldl (fun a c => a * 10 + (c.toNat - 48)) 0

/-- `pd.to_numeric(s, errors='coerce')` on one cell: an optionally signed
decimal literal `int.frac` parses to its exact value
`sign * (int·10^k + frac) / 10^k`, anything else becomes a missing value
(`NaN`, modelled as `none`) instead of raising. -/
def toNumericCoerce (s : String) : Option ℚ :=
  match s.data with
  | [] => none
  | cs =>
    let signed : Int × List Char :=
      match cs with
      | '-' :: t => (-1, t)
      | '+' :: t => (1, t)
      | t => (1, t)
    match splitDot signed.2 with
    | [a] =>
      if a ≠ [] ∧ a.all Char.isDigit then
        some (mkRat (signed.1 * digitsVal a) 1)
      else none
    | [a, b] =>
      if (a ≠ [] ∨ b ≠ []) ∧ a.all Char.isDigit ∧ b.all Char.isDigit then
        some (mkRat (signed.1 * (digitsVal a * 10 ^ b.length + digitsVal b)) (10 ^ b.length))
      else none
    | _ => none

/-- The global `percentiles` dict: each column run through
`pd.to_numeric(col.str.replace(',', '.'), errors='coerce')`. -/
def percentilesOfWho (w : WhoData) : Percentiles :=
  { p5 := w.P5.map fun s => toNumericCoerce (replaceCommaDot s)
    p10 := w.P10.map fun s => toNumericCoerce (replaceCommaDot s)
    p50 := w.P50.map fun s => toNumericCoerce (replaceCommaDot s)
    p90 := w.P90.map fun s => toNumericCoerce (replaceCommaDot s)
    p95 := w.P95.map fun s => toNumericCoerce (replaceCommaDot s) }

/-- The global `days` list: `(who_data['Week'] * 7).tolist()`. -/
def daysOfWho (w : WhoData) : List Int :=
  w.Week.map fun n => n * 7

/-! ## Supporting lemmas -/

theorem rowsOfRecs_nil : rowsOfRecs [] = [] := rfl

theorem rowsOfRecs_cons (g : GrowthRecord) (l : List GrowthRecord) :
    rowsOfRecs (g :: l)
      = (⟨cellString g.Date, g.Age_Days, g.Weight_kg⟩ : Row) :: rowsOfRecs l := rfl

/-- Serializing a successfully parsed table reproduces the input rows
character for character: the `to_datetime` / `to_csv` round trip is
lossless. -/
theorem rowsOfRecs_parseRows (rows : List Row) (recs : List GrowthRecord)
    (h : parseRows rows = some recs) : rowsOfRecs recs = rows := by
  induction rows generalizing recs with
  | nil =>
    simp only [parseRows] at h
    injection h with h
    subst h
    rfl
  | cons r rs ih =>
    unfold parseRows at h
    cases hr : recOfRow? r <;> rw [hr] at h
    · simp at h
    · cases hp : parseRows rs <;> rw [hp] at h
      · simp at h
      · injection h with h
        subst h
        unfold recOfRow? at hr
        cases hd : parseIso r.Date <;> rw [hd] at hr
        · exact Option.noConfusion hr
        · injection hr with hr
          subst hr
          rw [rowsOfRecs_cons]
          have hcell : cellString (DateCell.ts _) = r.Date := isoString_parseIso _ _ hd
          simp only [hcell, ih _ hp]

/-- Serializing the raw-string frame gives back exactly the rows it was
built from. -/
theorem rowsOfRecs_rawRecs (rows : List Row) : rowsOfRecs (rawRecs rows) = rows := by
  induction rows with
  | nil => rfl
  | cons r rs ih =>
    rw [show rawRecs (r :: rs)
        = (⟨DateCell.str r.Date, r.Age_Days, r.Weight_kg⟩ : GrowthRecord) :: rawRecs rs
      from rfl, rowsOfRecs_cons, ih]
    rfl

/-- Pointwise description of a successful column parse: each output
record is the parse of the input row at the same position. -/
theorem parseRows_getElem? (rows : List Row) (recs : List GrowthRecord)
    (h : parseRows rows = some recs) (i : Nat) :
    recs[i]? = (rows[i]?).bind recOfRow? := by
  induction rows generalizing recs i with
  | nil =>
    simp only [parseRows] at h
    injection h with h
    subst h
    simp
  | cons r rs ih =>
    unfold parseRows at h
    cases hr : recOfRow? r <;> rw [hr] at h
    · simp at h
    · cases hp : parseRows rs <;> rw [hp] at h
      · simp at h
      · injection h with h
        subst h
        cases i with
        | zero => simp [hr]
        | succ n => simpa using ih _ hp n

/-- The add branch in full: with both dates truthy and parseable and a
weight present, the callback appends the parsed record and persists the
whole frame. -/
theorem add_branch_eq (l : List GrowthRecord) (tbl : List Row)
    (dobS dateS : String) (w : ℚ) (dobD mD : DateV)
    (hdobP : parseIso dobS = some dobD) (hdateP : parseIso dateS = some mD)
    (hdob : dobS ≠ "") (hdate : dateS ≠ "") :
    update_data_and_chart (DFrame.frame l) Trigger.addButton tbl
        (some dobS) (some dateS) (some w)
      = { df := DFrame.frame (l ++ [⟨DateCell.ts mD,
              (mD.toOrdinal : Int) - (dobD.toOrdinal : Int), w⟩])
          written := some (rowsOfRecs (l ++ [⟨DateCell.ts mD,
              (mD.toOrdinal : Int) - (dobD.toOrdinal : Int), w⟩]))
          message := some "Record added successfully!"
          tableOut := some (rowsOfRecs (l ++ [⟨DateCell.ts mD,
              (mD.toOrdinal : Int) - (dobD.toOrdinal : Int), w⟩])) } := by
  unfold update_data_and_chart
  rw [if_pos ⟨rfl, by simp [truthyStr, hdob], by simp [truthyStr, hdate], rfl⟩]
  have h1 : parseIsoChars ((some dobS).getD "").data = some dobD := hdobP
  have h2 : parseIsoChars ((some dateS).getD "").data = some mD := hdateP
  rw [h1, h2]
  rfl

/-- The replace branch in full for a non-empty, fully parseable table:
the frame is wholesale-replaced and persisted. -/
theorem save_branch_eq (df0 : DFrame) (trigger : Trigger) (rows : List Row)
    (recs : List GrowthRecord) (dob date : Option String) (weight : Option ℚ)
    (ht : trigger = Trigger.saveButton ∨ trigger = Trigger.dataTable)
    (hne : rows ≠ []) (hp : parseRows rows = some recs) :
    update_data_and_chart df0 trigger rows dob date weight
      = ⟨DFrame.frame recs, some (rowsOfRecs recs),
          some "Changes saved successfully!", some (rowsOfRecs recs)⟩ := by
  cases rows with
  | nil => exact absurd rfl hne
  | cons r rs =>
    rcases ht with h | h <;> subst h <;>
      · unfold update_data_and_chart
        rw [if_neg (by simp), if_pos (by simp)]
        have hred : replaceAllOutcome (r :: rs)
            = (match parseRows (r :: rs) with
               | some recs2 =>
                 (⟨DFrame.frame recs2, some (rowsOfRecs recs2),
                   some "Changes saved successfully!", some (rowsOfRecs recs2)⟩ : Outcome)
               | none => ⟨DFrame.frame (rawRecs (r :: rs)), none, none, none⟩) := rfl
        rw [hred, hp]

/-! ## Claims -/

/-- C1: for every add event in which `date_of_birth`, `measurement_date`
and `weight` are all provided (truthy dates that parse as `%Y-%m-%d`, a
non-null weight), the callback appends exactly one new record to the end
of the store whose `Age_Days` is the whole-day ordinal difference
`measurement_date - date_of_birth` (an `Int`, so negative differences are
kept, not rejected), persists the full store, reports the success
message, and leaves every previously stored record unchanged in place. -/
theorem c1_add_appends_record (l : List GrowthRecord) (tbl : List Row)
    (dobS dateS : String) (w : ℚ) (dobD mD : DateV)
    (hdobP : parseIso dobS = some dobD) (hdateP : parseIso dateS = some mD)
    (hdob : dobS ≠ "") (hdate : dateS ≠ "") :
    update_data_and_chart (DFrame.frame l) Trigger.addButton tbl
        (some dobS) (some dateS) (some w)
      = { df := DFrame.frame (l ++ [⟨DateCell.ts mD,
              (mD.toOrdinal : Int) - (dobD.toOrdinal : Int), w⟩])
          written := some (rowsOfRecs (l ++ [⟨DateCell.ts mD,
              (mD.toOrdinal : Int) - (dobD.toOrdinal : Int), w⟩]))
          message := some "Record added successfully!"
          tableOut := some (rowsOfRecs (l ++ [⟨DateCell.ts mD,
              (mD.toOrdinal : Int) - (dobD.toOrdinal : Int), w⟩])) } :=
  add_branch_eq l tbl dobS dateS w dobD mD hdobP hdateP hdob hdate

/-- Witness for C1 at a concrete input where the measurement date
precedes the date of birth: the age comes out as -14 days and the record
is still appended and persisted after the existing record. -/
theorem c1_add_appends_record_witness :
    update_data_and_chart (DFrame.frame [⟨DateCell.ts ⟨2024, 1, 1⟩, 0, 3⟩])
        Trigger.addButton [] (some "2024-01-15") (some "2024-01-01") (some 4)
      = { df := DFrame.frame [⟨DateCell.ts ⟨2024, 1, 1⟩, 0, 3⟩,
              ⟨DateCell.ts ⟨2024, 1, 1⟩, -14, 4⟩]
          written := some [⟨"2024-01-01", 0, 3⟩, ⟨"2024-01-01", -14, 4⟩]
          message := some "Record added successfully!"
          tableOut := some [⟨"2024-01-01", 0, 3⟩, ⟨"2024-01-01", -14, 4⟩] } :=
  (c1_add_appends_record [⟨DateCell.ts ⟨2024, 1, 1⟩, 0, 3⟩] []
      "2024-01-15" "2024-01-01" 4 ⟨2024, 1, 15⟩ ⟨2024, 1, 1⟩
      (by decide) (by decide) (by decide) (by decide)).trans (by decide)

/-- C10: the add branch tests the weight only with `is not None`, never
for positivity (or even Python truthiness): an add event with a weight
`w ≤ 0` and both dates provided appends and persists a record carrying
that non-positive weight unchanged. -/
theorem c10_nonpositive_weight_accepted (l : List GrowthRecord)
    (tbl : List Row) (dobS dateS : String) (w : ℚ) (hw : w ≤ 0)
    (dobD mD : DateV)
    (hdobP : parseIso dobS = some dobD) (hdateP : parseIso dateS = some mD)
    (hdob : dobS ≠ "") (hdate : dateS ≠ "") :
    update_data_and_chart (DFrame.frame l) Trigger.addButton tbl
        (some dobS) (some dateS) (some w)
      = { df := DFrame.frame (l ++ [⟨DateCell.ts mD,
              (mD.toOrdinal : Int) - (dobD.toOrdinal : Int), w⟩])
          written := some (rowsOfRecs (l ++ [⟨DateCell.ts mD,
              (mD.toOrdinal : Int) - (dobD.toOrdinal : Int), w⟩]))
          message := some "Record added successfully!"
          tableOut := some (rowsOfRecs (l ++ [⟨DateCell.ts mD,
              (mD.toOrdinal : Int) - (dobD.toOrdinal : Int), w⟩])) } :=
  add_branch_eq l tbl dobS dateS w dobD mD hdobP hdateP hdob hdate

/-- Witness for C10 at weight 0 (falsy in Python, but not `None`): the
zero-weight record is appended and persisted. -/
theorem c10_nonpositive_weight_accepted_witness :
    (0 : ℚ) ≤ 0 ∧
    update_data_and_chart (DFrame.frame []) Trigger.addButton []
        (some "2024-01-01") (some "2024-01-03") (some 0)
      = { df := DFrame.frame [⟨DateCell.ts ⟨2024, 1, 3⟩, 2, 0⟩]
          written := some [⟨"2024-01-03", 2, 0⟩]
          message := some "Record added successfully!"
          tableOut := some [⟨"2024-01-03", 2, 0⟩] } :=
  ⟨by decide,
    (c10_nonpositive_weight_accepted [] [] "2024-01-01" "2024-01-03" 0
        (by decide) ⟨2024, 1, 1⟩ ⟨2024, 1, 3⟩
        (by decide) (by decide) (by decide) (by decide)).trans (by decide)⟩

/-- C2: an add event with a null weight or a missing (or empty) date, and
any event from a trigger other than add/save/table, mutates nothing:
the frame is unchanged, nothing is written to storage, and the callback
reports the "No changes made." message. -/
theorem c2_no_changes (df0 : DFrame) (trigger : Trigger) (tbl : List Row)
    (dob date : Option String) (weight : Option ℚ)
    (h : trigger = Trigger.other ∨
      (trigger = Trigger.addButton ∧
        (truthyStr dob = false ∨ truthyStr date = false ∨ weight = none))) :
    update_data_and_chart df0 trigger tbl dob date weight
      = ⟨df0, none, some "No changes made.", some df0.displayRows⟩ := by
  rcases h with h | ⟨ht, hmiss⟩
  · subst h
    unfold update_data_and_chart
    rw [if_neg (by simp), if_neg (by simp)]
  · subst ht
    unfold update_data_and_chart
    rw [if_neg, if_neg (by simp)]
    rintro ⟨-, h1, h2, h3⟩
    rcases hmiss with hm | hm | hm
    · rw [hm] at h1; exact Bool.noConfusion h1
    · rw [hm] at h2; exact Bool.noConfusion h2
    · subst hm; exact Bool.noConfusion h3

/-- Witness for C2: add pressed with both dates set but the weight field
empty — nothing changes and nothing is written. -/
theorem c2_no_changes_witness :
    update_data_and_chart (DFrame.frame [⟨DateCell.ts ⟨2024, 2, 2⟩, 5, 4⟩])
        Trigger.addButton [] (some "2024-01-01") (some "2024-01-15") none
      = ⟨DFrame.frame [⟨DateCell.ts ⟨2024, 2, 2⟩, 5, 4⟩], none,
          some "No changes made.", some [⟨"2024-02-02", 5, 4⟩]⟩ :=
  (c2_no_changes (DFrame.frame [⟨DateCell.ts ⟨2024, 2, 2⟩, 5, 4⟩])
      Trigger.addButton [] (some "2024-01-01") (some "2024-01-15") none
      (Or.inr ⟨rfl, Or.inr (Or.inr rfl)⟩)).trans (by decide)

/-- C9 (amended): a save or table-edited event whose row list is empty
raises (`df['Date']` is a `KeyError` on the column-less
`pd.DataFrame([])`) before any storage write, and the in-memory store has
already been replaced by the empty column-less frame — so an empty
dataset can never be persisted through the table.  (A later add still
produces a schema-conforming frame; see the counterexample.) -/
theorem c9_empty_save_raises (st : DFrame) (trigger : Trigger)
    (dob date : Option String) (weight : Option ℚ)
    (ht : trigger = Trigger.saveButton ∨ trigger = Trigger.dataTable) :
    update_data_and_chart st trigger [] dob date weight
      = ⟨DFrame.noColumns, none, none, none⟩ := by
  rcases ht with h | h <;> subst h <;>
    · unfold update_data_and_chart
      rw [if_neg (by simp), if_pos (by simp)]
      rfl

/-- Witness for C9 via the table-edited trigger on a non-empty store. -/
theorem c9_empty_save_raises_witness :
    update_data_and_chart (DFrame.frame [⟨DateCell.ts ⟨2023, 5, 5⟩, 2, 5⟩])
        Trigger.dataTable [] none none none
      = ⟨DFrame.noColumns, none, none, none⟩ :=
  c9_empty_save_raises (DFrame.frame [⟨DateCell.ts ⟨2023, 5, 5⟩, 2, 5⟩])
    Trigger.dataTable none none none (Or.inr rfl)

/-- Counterexample to C9 as stated: its final conjunct claims that after
the failed empty save "the add-branch no longer satisfies the persisted
schema".  In fact, starting from the column-less frame the empty save
leaves behind, a subsequent add concatenates onto `pd.DataFrame([])` and
yields a frame with exactly the three schema columns, which is persisted
with a schema-conforming CSV row. -/
theorem c9_counterexample :
    (update_data_and_chart (DFrame.frame [⟨DateCell.ts ⟨2024, 1, 1⟩, 0, 3⟩])
        Trigger.saveButton [] none none none
      = ⟨DFrame.noColumns, none, none, none⟩)
    ∧ (update_data_and_chart DFrame.noColumns Trigger.addButton []
        (some "2024-01-01") (some "2024-01-15") (some 4)
      = ⟨DFrame.frame [⟨DateCell.ts ⟨2024, 1, 15⟩, 14, 4⟩],
          some [⟨"2024-01-15", 14, 4⟩],
          some "Record added successfully!",
          some [⟨"2024-01-15", 14, 4⟩]⟩) :=
  ⟨by decide, by decide⟩

/-- Display of the frame produced by replacing with a non-empty row list:
whether or not the dates parse, the displayed rows come back unchanged. -/
theorem replaceAll_display (r : Row) (rs : List Row) :
    (replaceAllOutcome (r :: rs)).df.displayRows = r :: rs := by
  have hred : replaceAllOutcome (r :: rs)
      = (match parseRows (r :: rs) with
         | some recs2 =>
           (⟨DFrame.frame recs2, some (rowsOfRecs recs2),
             some "Changes saved successfully!", some (rowsOfRecs recs2)⟩ : Outcome)
         | none => ⟨DFrame.frame (rawRecs (r :: rs)), none, none, none⟩) := rfl
  rw [hred]
  cases hp : parseRows (r :: rs) with
  | some recs => exact rowsOfRecs_parseRows _ _ hp
  | none => exact rowsOfRecs_rawRecs _

/-- C3: a save or table-edited event with a (non-empty, date-parseable)
row list wholesale-replaces the store with exactly those rows and
persists them; only the `Date` column is re-parsed, while each row's
`Age_Days` and `Weight_kg` are taken verbatim from the input and never
recomputed from the dates — so a store whose `Date` and `Age_Days`
columns are mutually inconsistent is accepted (final conjunct: two
records with the same date but different ages coexist). -/
theorem c3_replace_verbatim (df0 : DFrame) (trigger : Trigger)
    (rows : List Row) (recs : List GrowthRecord)
    (dob date : Option String) (weight : Option ℚ)
    (ht : trigger = Trigger.saveButton ∨ trigger = Trigger.dataTable)
    (hne : rows ≠ []) (hp : parseRows rows = some recs) :
    (update_data_and_chart df0 trigger rows dob date weight
      = ⟨DFrame.frame recs, some (rowsOfRecs recs),
          some "Changes saved successfully!", some (rowsOfRecs recs)⟩)
    ∧ (∀ i : Nat, recs[i]? = (rows[i]?).bind recOfRow?)
    ∧ (∃ rows2 : List Row, ∃ r1 r2 : GrowthRecord,
        (update_data_and_chart df0 Trigger.saveButton rows2 dob date weight).df
          = DFrame.frame [r1, r2]
        ∧ r1.Date = r2.Date ∧ r1.Age_Days ≠ r2.Age_Days) := by
  refine ⟨save_branch_eq df0 trigger rows recs dob date weight ht hne hp,
    parseRows_getElem? rows recs hp,
    [⟨"2024-01-15", 14, 4⟩, ⟨"2024-01-15", 999, 4⟩],
    ⟨DateCell.ts ⟨2024, 1, 15⟩, 14, 4⟩, ⟨DateCell.ts ⟨2024, 1, 15⟩, 999, 4⟩,
    ?_, by decide, by decide⟩
  rw [save_branch_eq df0 Trigger.saveButton
    [⟨"2024-01-15", 14, 4⟩, ⟨"2024-01-15", 999, 4⟩]
    [⟨DateCell.ts ⟨2024, 1, 15⟩, 14, 4⟩, ⟨DateCell.ts ⟨2024, 1, 15⟩, 999, 4⟩]
    dob date weight (Or.inl rfl) (by decide) (by decide)]

/-- Witness for C3: a one-row table edit is stored verbatim. -/
theorem c3_replace_verbatim_witness :
    update_data_and_chart (DFrame.frame []) Trigger.saveButton
        [⟨"2024-03-02", 61, 5⟩] none none none
      = ⟨DFrame.frame [⟨DateCell.ts ⟨2024, 3, 2⟩, 61, 5⟩],
          some [⟨"2024-03-02", 61, 5⟩], some "Changes saved successfully!",
          some [⟨"2024-03-02", 61, 5⟩]⟩ :=
  ((c3_replace_verbatim (DFrame.frame []) Trigger.saveButton
      [⟨"2024-03-02", 61, 5⟩] [⟨DateCell.ts ⟨2024, 3, 2⟩, 61, 5⟩]
      none none none (Or.inl rfl) (by decide) (by decide)).1).trans (by decide)

/-- Counterexample to C6 as stated: the claim quantifies over *every*
schema-conforming row list, but on the empty list the replace branch
raises (`KeyError` on the column-less frame) before anything is
serialized: the callback returns no message, writes nothing, and leaves
the column-less frame, so no round trip yields the rows back. -/
theorem c6_counterexample :
    update_data_and_chart (DFrame.frame []) Trigger.saveButton [] none none none
      = ⟨DFrame.noColumns, none, none, none⟩ := by decide

/-- C6 (amended): for every NON-EMPTY list of rows conforming to the
persisted schema (`Date` an ISO date string, i.e. parseable), the replace
branch stores the parsed rows and persists them, the serialized CSV rows
equal the input rows exactly (dates re-serialized losslessly, no
timezone drift), and re-loading the serialized CSV reproduces the same
store. -/
theorem c6_roundtrip_nonempty (rows : List Row) (recs : List GrowthRecord)
    (df0 : DFrame) (dob date : Option String) (weight : Option ℚ)
    (hne : rows ≠ []) (hp : parseRows rows = some recs) :
    (update_data_and_chart df0 Trigger.saveButton rows dob date weight
      = ⟨DFrame.frame recs, some (rowsOfRecs recs),
          some "Changes saved successfully!", some (rowsOfRecs recs)⟩)
    ∧ rowsOfRecs recs = rows
    ∧ loadStore (some (rowsOfRecs recs)) = DFrame.frame recs := by
  have hr := rowsOfRecs_parseRows rows recs hp
  refine ⟨save_branch_eq df0 Trigger.saveButton rows recs dob date weight
    (Or.inl rfl) hne hp, hr, ?_⟩
  have hred : loadStore (some (rowsOfRecs recs))
      = (match parseRows (rowsOfRecs recs) with
         | some recs2 => DFrame.frame recs2
         | none => DFrame.frame []) := rfl
  rw [hred, hr, hp]

/-- Witness for C6 at a concrete one-row table. -/
theorem c6_roundtrip_nonempty_witness :
    (update_data_and_chart (DFrame.frame []) Trigger.saveButton
        [⟨"2024-01-15", 14, 4⟩] none none none
      = ⟨DFrame.frame [⟨DateCell.ts ⟨2024, 1, 15⟩, 14, 4⟩],
          some [⟨"2024-01-15", 14, 4⟩], some "Changes saved successfully!",
          some [⟨"2024-01-15", 14, 4⟩]⟩)
    ∧ rowsOfRecs [⟨DateCell.ts ⟨2024, 1, 15⟩, 14, 4⟩] = [⟨"2024-01-15", 14, 4⟩]
    ∧ loadStore (some (rowsOfRecs [⟨DateCell.ts ⟨2024, 1, 15⟩, 14, 4⟩]))
      = DFrame.frame [⟨DateCell.ts ⟨2024, 1, 15⟩, 14, 4⟩] := by
  have h := c6_roundtrip_nonempty [⟨"2024-01-15", 14, 4⟩]
    [⟨DateCell.ts ⟨2024, 1, 15⟩, 14, 4⟩] (DFrame.frame []) none none none
    (by decide) (by decide)
  exact ⟨(h.1).trans (by decide), h.2.1, h.2.2⟩

/-- C7: for every store state, replacing via save with the store's own
displayed contents leaves the displayed `Date`, `Age_Days` and
`Weight_kg` values of every row unchanged — `replaceAll` is idempotent
with respect to observable data (even in the degenerate states where the
replace raises, the displayed data is preserved). -/
theorem c7_replace_idempotent (st : DFrame) (dob date : Option String)
    (weight : Option ℚ) :
    (update_data_and_chart st Trigger.saveButton st.displayRows
        dob date weight).df.displayRows
      = st.displayRows := by
  cases st with
  | noColumns => rfl
  | frame l =>
    cases l with
    | nil => rfl
    | cons g gs =>
      unfold update_data_and_chart
      rw [if_neg (by simp), if_pos (Or.inl rfl)]
      exact replaceAll_display ⟨cellString g.Date, g.Age_Days, g.Weight_kg⟩
        (rowsOfRecs gs)

/-- C4: for every reference curve set and age axis, the chart built from
an empty record store has exactly 7 traces (two bands then five
percentile lines) and the chart built from a non-empty store has exactly
8, the 8th being the "Baby's Growth" line+marker trace containing exactly
one point `(Age_Days, Weight_kg)` per stored record in store order. -/
theorem c4_trace_count (days : List Int) (pcts : Percentiles) (st : DFrame) :
    ((update_chart days pcts st).traces.length
      = if st.recordsList = [] then 7 else 8)
    ∧ ((update_chart days pcts st).traces[7]?
      = if st.recordsList = [] then none
        else some { x := st.recordsList.map fun r => r.Age_Days
                    y := st.recordsList.map fun r => some r.Weight_kg
                    mode := some "lines+markers"
                    lineColor := some "red"
                    lineWidth := some 2
                    markerSize := some 6
                    name := some "Baby's Growth" }) := by
  by_cases hc : st.recordsList = [] <;>
    simp [update_chart, percentileItems, hc]

/-- C5: in every chart the first trace is the closed 95th/5th band
polygon — x is the age axis followed by its reverse, y the 95th values
followed by the reversed 5th values — with light shading, and the second
trace is the same construction over the 90th/10th percentiles with darker
shading; both bands suppress hover and have no legend entry. -/
theorem c5_band_polygons (days : List Int) (pcts : Percentiles) (st : DFrame) :
    ((update_chart days pcts st).traces[0]?
      = some { x := days ++ days.reverse
               y := pcts.p95 ++ pcts.p5.reverse
               fill := some "toself"
               fillcolor := some "rgba(200,200,200,0.3)"
               lineColor := some "rgba(255,255,255,0)"
               hoverinfo := some "skip"
               showlegend := false })
    ∧ ((update_chart days pcts st).traces[1]?
      = some { x := days ++ days.reverse
               y := pcts.p90 ++ pcts.p10.reverse
               fill := some "toself"
               fillcolor := some "rgba(150,150,150,0.3)"
               lineColor := some "rgba(255,255,255,0)"
               hoverinfo := some "skip"
               showlegend := false }) :=
  ⟨rfl, rfl⟩

/-- C8: for every WHO reference table, each percentile column is parsed
by replacing comma decimal separators with periods and parsing as a
(decimal floating point) number, with unparseable cells mapped to a
missing value rather than raising; and the age axis satisfies
`days[i] = Week[i] * 7` at every row. -/
theorem c8_reference_loader (w : WhoData) (i : Nat) (hi : i < w.Week.length) :
    (daysOfWho w)[i]? = some (w.Week[i] * 7)
    ∧ (percentilesOfWho w).p5 = w.P5.map (fun s => toNumericCoerce (replaceCommaDot s))
    ∧ (percentilesOfWho w).p10 = w.P10.map (fun s => toNumericCoerce (replaceCommaDot s))
    ∧ (percentilesOfWho w).p50 = w.P50.map (fun s => toNumericCoerce (replaceCommaDot s))
    ∧ (percentilesOfWho w).p90 = w.P90.map (fun s => toNumericCoerce (replaceCommaDot s))
    ∧ (percentilesOfWho w).p95 = w.P95.map (fun s => toNumericCoerce (replaceCommaDot s)) := by
  refine ⟨?_, rfl, rfl, rfl, rfl, rfl⟩
  rw [show daysOfWho w = w.Week.map (fun n => n * 7) from rfl,
    List.getElem?_map, List.getElem?_eq_getElem hi]
  rfl

/-- A small concrete WHO table: comma decimals, an unparseable cell, and
a period decimal. -/
def whoSample : WhoData :=
  ⟨[0, 1, 2],
   ["2,1", "abc", "2.8"],
   ["2,3", "3", "3,1"],
   ["3,2", "3,9", "4,5"],
   ["4,2", "5", "5,8"],
   ["4,8", "5,5", "6,2"]⟩

/-- Witness for C8 on `whoSample`: the age axis is the weeks times 7, the
comma cells parse to exact decimals, and the junk cell becomes a missing
value. -/
theorem c8_reference_loader_witness :
    0 < whoSample.Week.length
    ∧ (daysOfWho whoSample)[0]? = some 0
    ∧ (percentilesOfWho whoSample).p5
      = [some (mkRat 21 10), none, some (mkRat 14 5)] := by
  have h := c8_reference_loader whoSample 0 (by decide)
  exact ⟨by decide, (h.1).trans (by decide), (h.2.1).trans (by decide)⟩
